import Mathlib

/-!
Shallow embedding of the SpeziData flattening and visualization pipeline.

The definitions below translate, construct by construct, the Python code in
`data_flattening/fhir_resources_flattener.py` and
`data_visualization/data_visualizer.py`.  Pandas frames are modelled as a
column-name list plus a row list of dynamically typed cells; Python
exceptions are modelled with `Except` carrying a structured error value that
records which exception the interpreter would raise.
-/

set_option autoImplicit false

namespace SpeziData

/-- Dynamically typed cell value, as stored in a pandas object column.
`naT` stands for the pandas missing-timestamp sentinel NaT, which the Python
`isinstance(x, date)` test accepts as a date (NaT subclasses datetime). -/
inductive PyVal where
  | none
  | naT
  | str (s : String)
  | int (n : Int)
  | date (y m d : Nat)
deriving DecidableEq, Repr

/-- Structured stand-in for the Python exceptions the embedded code can raise. -/
inductive PyErr where
  | keyError (k : String)
  | attributeError (a : String)
  | typeError (msg : String)
  | valueError (msg : String)
  | indexError
  | unboundLocal (v : String)
  | missingColumns (cols : List String)
  | wrongTypeDate
  | wrongTypeCol (col : String)
deriving DecidableEq, Repr

instance {ε α : Type} [DecidableEq ε] [DecidableEq α] : DecidableEq (Except ε α) := fun a b =>
  match a, b with
  | .error e₁, .error e₂ =>
    if h : e₁ = e₂ then isTrue (h ▸ rfl)
    else isFalse fun hh => h (by injection hh)
  | .ok a₁, .ok a₂ =>
    if h : a₁ = a₂ then isTrue (h ▸ rfl)
    else isFalse fun hh => h (by injection hh)
  | .error _, .ok _ => isFalse fun hh => Except.noConfusion hh
  | .ok _, .error _ => isFalse fun hh => Except.noConfusion hh

def PyVal.isStr : PyVal → Bool
  | .str _ => true
  | _ => false

def PyVal.isInt : PyVal → Bool
  | .int _ => true
  | _ => false

def PyVal.isNone : PyVal → Bool
  | .none => true
  | _ => false

/-- Result of the Python test `isinstance(x, datetime.date)`: true for real
dates and for the pandas NaT sentinel (a datetime subclass). -/
def PyVal.isDateInstance : PyVal → Bool
  | .date _ _ _ => true
  | .naT => true
  | _ => false

/-- Python truthiness of a cell value: None, NaT-free empty strings and zero
are falsy. (NaT itself is truthy in Python; it never reaches a truthiness
test in the embedded code.) -/
def PyVal.truthy : PyVal → Bool
  | .none => false
  | .str s => s ≠ ""
  | .int n => n ≠ 0
  | _ => true

/-- Python truthiness of an optional string (the result of `dict.get`). -/
def pyTruthy : Option String → Bool
  | Option.none => false
  | some s => s ≠ ""

/-- Pandas dtype of a column, restricted to the dtypes the pipeline can
produce: an all-int column infers int64, an all-None column infers float64
(all NaN), everything else (strings, dates, mixtures) is stored as object. -/
inductive Dtype where
  | int64
  | float64
  | object
deriving DecidableEq, Repr

def dtypeOf (cells : List PyVal) : Dtype :=
  if cells ≠ [] ∧ cells.all PyVal.isInt then .int64
  else if cells ≠ [] ∧ cells.all PyVal.isNone then .float64
  else .object

/-- Embedding of `is_string_dtype(col) or is_object_dtype(col)`: both hold
exactly for the object dtype in this pipeline (default pandas string storage
is object dtype). -/
def stringLikeDtype : Dtype → Bool
  | .object => true
  | _ => false

/-- Minimal pandas DataFrame: ordered column names and rows of cells, each
row aligned positionally with `cols`. -/
structure PandasDF where
  cols : List String
  rows : List (List PyVal)
deriving DecidableEq, Repr

/-- Column lookup `df[name]`: the list of cells, or `Option.none` when the
column is absent (a KeyError site in Python). -/
def PandasDF.getCol (df : PandasDF) (c : String) : Option (List PyVal) :=
  (df.cols.findIdx? (· = c)).map fun i => df.rows.map fun r => r.getD i PyVal.none

/-- Series.nunique: the number of distinct non-missing values in a column. -/
def nunique (cells : List PyVal) : Nat :=
  ((cells.filter fun v => v ≠ PyVal.none ∧ v ≠ PyVal.naT).eraseDups).length

/-- FHIRResourceType enumeration from the source. -/
inductive FHIRResourceType where
  | OBSERVATION
  | QUESTIONNAIRE_RESPONSE
deriving DecidableEq, Repr

/-- The eight Observation columns of the resource_columns registry, in
declaration order (which is also the key-insertion order of each flattened
entry dict, hence the DataFrame column order). -/
def observationColumns : List String :=
  ["UserId", "EffectiveDateTime", "QuantityName", "QuantityUnit",
   "QuantityValue", "LoincCode", "Display", "AppleHealthKitCode"]

/-- The five QuestionnaireResponse columns of the resource_columns registry. -/
def questionnaireResponseColumns : List String :=
  ["UserId", "EffectiveDateTime", "QuantityName", "QuantityValue", "LoincCode"]

/-- Embedding of the resource_columns mapping built in
ResourceFlattener.__init__ (values of the ColumnNames enum members). -/
def requiredColumns : FHIRResourceType → List String
  | .OBSERVATION => observationColumns
  | .QUESTIONNAIRE_RESPONSE => questionnaireResponseColumns

/-- Embedding of the FHIRDataFrame dataclass: a pandas frame tagged with its
resource type.  Both enum members have a registry entry, so the constructor
check `resource_type not in self.resource_columns` never fires. -/
structure FHIRDataFrame where
  data_frame : PandasDF
  resource_type : FHIRResourceType
deriving DecidableEq, Repr

/-- The loop `for column in set(required_columns) - \x7bEDT, QV\x7d` raises on
the first encountered column that is present yet not string-or-object dtyped.
Set iteration order is unspecified in Python; the embedding fixes first-listed
order, which the theorems do not rely on beyond some column being reported. -/
def firstBadStringCol (df : PandasDF) (cols : List String) : Option String :=
  cols.find? fun c =>
    match df.getCol c with
    | some cells => !stringLikeDtype (dtypeOf cells)
    | Option.none => false

/-- The lines 168-176 check as a predicate: if the EffectiveDateTime column
is present, every cell passes isinstance(cell, date). -/
def edtCellsOK (df : PandasDF) : Bool :=
  match df.getCol "EffectiveDateTime" with
  | some cells => cells.all PyVal.isDateInstance
  | Option.none => true

/-- The set of columns the string-dtype loop ranges over. -/
def stringCheckCols (t : FHIRResourceType) : List String :=
  (requiredColumns t).eraseDups.filter fun c =>
    c ≠ "EffectiveDateTime" ∧ c ≠ "QuantityValue"

/-- The required columns absent from the frame, in registry order. -/
def missingCols (f : FHIRDataFrame) : List String :=
  (requiredColumns f.resource_type).filter fun c => ¬ f.data_frame.cols.contains c

/-- Embedding of FHIRDataFrame.validate_columns.  Order of checks follows the
source: missing required columns first (all of them joined into one error),
then the EffectiveDateTime isinstance-date check, then the per-column
string-dtype check over the remaining required columns. -/
def validate_columns (f : FHIRDataFrame) : Except PyErr Bool :=
  if missingCols f ≠ [] then .error (.missingColumns (missingCols f))
  else if edtCellsOK f.data_frame then
    match firstBadStringCol f.data_frame (stringCheckCols f.resource_type) with
    | some c => .error (.wrongTypeCol c)
    | Option.none => .ok true
  else .error .wrongTypeDate

/-- One coding entry of `code.coding`. -/
structure Coding where
  code : String
  display : String
deriving DecidableEq, Repr

/-- The `code` field of an Observation; its `coding` key may be absent. -/
structure CodeField where
  coding : Option (List Coding)
deriving DecidableEq, Repr

/-- The `effectivePeriod` field; its `start` key may be absent. -/
structure Period where
  start : Option String
deriving DecidableEq, Repr

/-- The `subject` reference; its `id` attribute may be unset (None). -/
structure Subject where
  id : Option String
deriving DecidableEq, Repr

/-- The `valueQuantity` field. -/
structure Quantity where
  unit : String
  value : Int
deriving DecidableEq, Repr

/-- Embedding of an upstream FHIR resource object as consumed by the
flattener: every field the code reads, each optional where the Python lookup
tolerates or raises on absence.  `resource_type` is the string tag exposed by
the resource object model (a str, not the FHIRResourceType enum). -/
structure Observation where
  resource_type : String
  effectiveDateTime : Option String
  effectivePeriod : Option Period
  code : Option CodeField
  subject : Option Subject
  valueQuantity : Option Quantity
deriving DecidableEq, Repr

/-- Embedding of lines 307-310: take effectiveDateTime when truthy, else
effectivePeriod.get("start") where a missing effectivePeriod defaults to the
empty dict. -/
def selectEffective (r : Observation) : Option String :=
  if pyTruthy r.effectiveDateTime then r.effectiveDateTime
  else r.effectivePeriod.bind Period.start

/-- Cell stored for EffectiveDateTime before the column-level date coercion:
`effective_datetime if effective_datetime else None`. -/
def optStrCell (o : Option String) : PyVal :=
  match o with
  | some s => if s = "" then PyVal.none else PyVal.str s
  | Option.none => PyVal.none

/-- LoincCode extraction, line 313. -/
def loincOf : List Coding → String
  | [] => ""
  | c :: _ => c.code

/-- Display extraction, line 314. -/
def displayOf : List Coding → String
  | [] => ""
  | c :: _ => c.display

/-- AppleHealthKitCode extraction, lines 315-319: second coding entry when it
exists, else first, else empty. -/
def ahkOf : List Coding → String
  | _ :: c2 :: _ => c2.code
  | c :: _ => c.code
  | [] => ""

/-- QuantityName extraction, lines 320-324: second coding entry when it
exists, else first, else empty. -/
def qnameOf : List Coding → String
  | _ :: c2 :: _ => c2.display
  | c :: _ => c.display
  | [] => ""

/-- Embedding of one iteration of the ObservationFlattener.flatten loop body.
Failure points in source evaluation order: `observation.dict()["code"]`
(KeyError code), `...["coding"]` (KeyError coding), `observation.subject.id`
(AttributeError id when subject is None — the first value computed in the
entry dict literal), then `observation.dict()["valueQuantity"]`
(KeyError valueQuantity). -/
def flattenOne (r : Observation) : Except PyErr (List PyVal) :=
  let edt := selectEffective r
  match r.code with
  | Option.none => .error (.keyError "code")
  | some cf =>
    match cf.coding with
    | Option.none => .error (.keyError "coding")
    | some cs =>
      match r.subject with
      | Option.none => .error (.attributeError "id")
      | some subj =>
        match r.valueQuantity with
        | Option.none => .error (.keyError "valueQuantity")
        | some q =>
          .ok [Option.elim subj.id PyVal.none PyVal.str,
               optStrCell edt,
               PyVal.str (qnameOf cs),
               PyVal.str q.unit,
               PyVal.int q.value,
               PyVal.str (loincOf cs),
               PyVal.str (displayOf cs),
               PyVal.str (ahkOf cs)]

/-- Sequence a fallible function over a list, stopping at the first error:
the semantics of the Python for-loop over the batch. -/
def mapExcept {α β ε : Type} (f : α → Except ε β) : List α → Except ε (List β)
  | [] => .ok []
  | x :: xs => do
    let y ← f x
    let ys ← mapExcept f xs
    .ok (y :: ys)

/-- Strict ISO calendar-date parser, the fragment of pandas to_datetime the
pipeline inputs exercise: exactly YYYY-MM-DD with an in-range month and day. -/
def parseDate (s : String) : Option (Nat × Nat × Nat) :=
  match s.toList with
  | [y1, y2, y3, y4, '-', m1, m2, '-', d1, d2] =>
    if y1.isDigit ∧ y2.isDigit ∧ y3.isDigit ∧ y4.isDigit ∧
       m1.isDigit ∧ m2.isDigit ∧ d1.isDigit ∧ d2.isDigit then
      let y := ((y1.toNat - 48) * 1000 + (y2.toNat - 48) * 100 +
                (y3.toNat - 48) * 10 + (y4.toNat - 48))
      let m := (m1.toNat - 48) * 10 + (m2.toNat - 48)
      let d := (d1.toNat - 48) * 10 + (d2.toNat - 48)
      if 1 ≤ m ∧ m ≤ 12 ∧ 1 ≤ d ∧ d ≤ 31 then some (y, m, d) else Option.none
    else Option.none
  | _ => Option.none

/-- Per-cell effect of `pd.to_datetime(col, errors="coerce").dt.date`:
parseable strings become dates, dates pass through, everything unparseable or
missing becomes the NaT missing sentinel. -/
def coerceCell : PyVal → PyVal
  | .str s =>
    match parseDate s with
    | some (y, m, d) => .date y m d
    | Option.none => .naT
  | .date y m d => .date y m d
  | _ => .naT

/-- Column assignment `df[col] = to_datetime(df[col], ...).dt.date`; reading
`df[col]` on the right-hand side raises KeyError when the column is absent
(which happens exactly when the batch was empty and the frame has no
columns). -/
def coerceDateColumnAt (df : PandasDF) (col : String) : Except PyErr PandasDF :=
  match df.cols.findIdx? (· = col) with
  | Option.none => .error (.keyError col)
  | some i =>
    .ok { df with rows := df.rows.map fun r => r.set i (coerceCell (r.getD i PyVal.none)) }

/-- Embedding of ObservationFlattener.flatten: flatten each record in order
(first failure aborts the batch), build the frame whose columns are the entry
dict keys (none when no rows), coerce the EffectiveDateTime column, and wrap
as an Observation-typed FHIRDataFrame. -/
def observationFlatten (resources : List Observation) : Except PyErr FHIRDataFrame :=
  match mapExcept flattenOne resources with
  | .error e => .error e
  | .ok rows =>
    match coerceDateColumnAt ⟨if rows.isEmpty then [] else observationColumns, rows⟩
        "EffectiveDateTime" with
    | .error e => .error e
    | .ok df2 => .ok ⟨df2, .OBSERVATION⟩

/-- Well-formedness needed for one record to flatten without raising: the
coding list, subject reference and value-quantity lookups all succeed. -/
def wellFormedObs (r : Observation) : Bool :=
  (r.code.bind CodeField.coding).isSome ∧ r.subject.isSome ∧ r.valueQuantity.isSome

/-- The row flattenOne produces for a well-formed record, written out. -/
def rawRow (r : Observation) : List PyVal :=
  let cs := (r.code.bind CodeField.coding).getD []
  [Option.elim ((r.subject.getD ⟨Option.none⟩).id) PyVal.none PyVal.str,
   optStrCell (selectEffective r),
   PyVal.str (qnameOf cs),
   PyVal.str ((r.valueQuantity.getD ⟨"", 0⟩).unit),
   PyVal.int ((r.valueQuantity.getD ⟨"", 0⟩).value),
   PyVal.str (loincOf cs),
   PyVal.str (displayOf cs),
   PyVal.str (ahkOf cs)]

/-- The row of the final frame for a well-formed record: `rawRow` with the
EffectiveDateTime cell (index 1) run through the date coercion. -/
def flatRow (r : Observation) : List PyVal :=
  let cs := (r.code.bind CodeField.coding).getD []
  [Option.elim ((r.subject.getD ⟨Option.none⟩).id) PyVal.none PyVal.str,
   coerceCell (optStrCell (selectEffective r)),
   PyVal.str (qnameOf cs),
   PyVal.str ((r.valueQuantity.getD ⟨"", 0⟩).unit),
   PyVal.int ((r.valueQuantity.getD ⟨"", 0⟩).value),
   PyVal.str (loincOf cs),
   PyVal.str (displayOf cs),
   PyVal.str (ahkOf cs)]

/-- Result of the dispatch function: what it printed and what it returned
or raised. -/
structure DispatchResult where
  logs : List String
  result : Except PyErr (Option FHIRDataFrame)
deriving DecidableEq, Repr

/-- Embedding of flatten_fhir_resources.  An empty batch prints a notice and
returns None.  Otherwise the string tag of the first record selects the
flattener: only the key "Observation" is registered.  For any other tag the
source builds the ValueError message with an f-string reading
resource_type.name, but resource_type is a str (the dict above is keyed by
enum .value strings, and the Observation path only works because the tag is
a str), so the attribute access itself raises AttributeError before the
intended ValueError exists. -/
def flatten_fhir_resources (resources : List Observation) : DispatchResult :=
  match resources with
  | [] => ⟨["No data available."], .ok Option.none⟩
  | r :: _ =>
    if r.resource_type = "Observation" then
      match observationFlatten resources with
      | .ok f => ⟨[], .ok (some f)⟩
      | .error e => ⟨[], .error e⟩
    else
      ⟨[], .error (.attributeError "name")⟩

/-- Opaque-to-the-claims stand-in for a matplotlib figure object. -/
inductive Figure where
  | mk
deriving DecidableEq, Repr

/-- Embedding of the DataVisualizer attribute state.  The date fields are
dynamically typed in Python: None at construction, a str after
set_date_range, a date object after create_static_plot parses them. -/
structure DataVisualizer where
  start_date : PyVal
  end_date : PyVal
  user_ids : Option (List String)
  y_lower : Int
  y_upper : Int
  combine_plots : Bool
  dpi : Int
deriving DecidableEq, Repr

/-- DataVisualizer.__init__ defaults. -/
def DataVisualizer.init : DataVisualizer :=
  ⟨PyVal.none, PyVal.none, Option.none, 50, 1000, true, 300⟩

/-- Embedding of set_date_range: stores the two raw strings. -/
def DataVisualizer.set_date_range (v : DataVisualizer) (s e : String) : DataVisualizer :=
  { v with start_date := .str s, end_date := .str e }

/-- Embedding of `datetime.strptime(x, "%Y-%m-%d").date()`: parses a str,
raises ValueError on a malformed str, and raises TypeError when the argument
is not a str at all (for instance an already-parsed date object). -/
def strptimeDate (v : PyVal) : Except PyErr (Nat × Nat × Nat) :=
  match v with
  | .str s =>
    match parseDate s with
    | some t => .ok t
    | Option.none => .error (.valueError "time data does not match format %Y-%m-%d")
  | _ => .error (.typeError "strptime argument 1 must be str")

/-- Date-triple comparison used by the pandas date-range filter. -/
def dateLE (a b : Nat × Nat × Nat) : Bool :=
  a.1 < b.1 ∨ (a.1 = b.1 ∧ (a.2.1 < b.2.1 ∨ (a.2.1 = b.2.1 ∧ a.2.2 ≤ b.2.2)))

/-- Embedding of the range filter on the EffectiveDateTime column.  NaT
compares False against any date, so NaT rows drop out; cells of other shapes
cannot occur here because validate_columns succeeded before this point. -/
def filterByRange (df : PandasDF) (s e : Nat × Nat × Nat) : PandasDF :=
  match df.cols.findIdx? (· = "EffectiveDateTime") with
  | Option.none => df
  | some i =>
    { df with rows := df.rows.filter fun r =>
        match r.getD i PyVal.none with
        | .date y m d => dateLE s (y, m, d) ∧ dateLE (y, m, d) e
        | _ => false }

/-- Column subscript that raises KeyError when the column is absent. -/
def colOrKeyError (df : PandasDF) (c : String) : Except PyErr (List PyVal) :=
  match df.getCol c with
  | some cells => .ok cells
  | Option.none => .error (.keyError c)

/-- Column accesses performed by the bar-plot loop body (filter on UserId,
groupby EffectiveDateTime, sum QuantityValue); no access happens when the
user list is empty because the loop body never runs. -/
def groupPlotChecks (df : PandasDF) (users : List PyVal) : Except PyErr Unit :=
  if users.isEmpty then .ok () else do
    let _ ← colOrKeyError df "UserId"
    let _ ← colOrKeyError df "EffectiveDateTime"
    let _ ← colOrKeyError df "QuantityValue"
    .ok ()

/-- Rows of `flattened_df[flattened_df["UserId"] == uid]`. -/
def userRows (df : PandasDF) (uid : PyVal) : Except PyErr (List (List PyVal)) :=
  match df.cols.findIdx? (· = "UserId") with
  | Option.none => .error (.keyError "UserId")
  | some i => .ok (df.rows.filter fun r => r.getD i PyVal.none = uid)

/-- The separate-plots loop: one figure per user; the per-user title reads
`user_df["QuantityName"].iloc[0]`, an IndexError when that user has no rows
in the filtered frame. -/
def separatePlotLoop (df : PandasDF) : List PyVal → Except PyErr Unit
  | [] => .ok ()
  | uid :: rest => do
    let rows ← userRows df uid
    let _ ← colOrKeyError df "EffectiveDateTime"
    let _ ← colOrKeyError df "QuantityValue"
    let _ ← colOrKeyError df "QuantityName"
    let _ ← colOrKeyError df "QuantityUnit"
    if rows.isEmpty then .error .indexError
    else separatePlotLoop df rest

/-- Embedding of lines 128-195: choose the users to plot (the stored list if
truthy, else the distinct UserId values of the filtered frame), draw either
one combined figure or one per user, and return the figure.  In the combined
branch the title reads `iloc[0]` of the filtered frame (IndexError when the
filter left no rows).  In the separate branch the local `fig` is only
assigned when exactly one user is plotted, so `return fig` raises
UnboundLocalError otherwise. -/
def plotTail (v : DataVisualizer) (df : PandasDF) : Except PyErr (Option Figure) := do
  let users ←
    match v.user_ids with
    | some ids =>
      if ids.isEmpty then (colOrKeyError df "UserId").map List.eraseDups
      else .ok (ids.map PyVal.str)
    | Option.none => (colOrKeyError df "UserId").map List.eraseDups
  if v.combine_plots then do
    let _ ← groupPlotChecks df users
    match df.getCol "QuantityName" with
    | Option.none => .error (.keyError "QuantityName")
    | some qn =>
      if qn.isEmpty then .error .indexError
      else do
        let _ ← colOrKeyError df "QuantityUnit"
        .ok (some Figure.mk)
  else do
    let _ ← separatePlotLoop df users
    if users.length = 1 then .ok (some Figure.mk) else .error (.unboundLocal "fig")

/-- Outcome of one create_static_plot call: the visualizer state after the
call (Python mutations persist even when a later statement raises), the
messages printed, and the returned figure or the exception raised. -/
structure PlotResult where
  state : DataVisualizer
  logs : List String
  result : Except PyErr (Option Figure)
deriving DecidableEq, Repr

/-- Modelled from the spec: `FHIRDataProcessor.validate_columns` comes from
the data_analysis module, which is not among the source files.  Per spec
section 6 the visualization consumer accepts a validated Typed Frame, so the
processor check is modelled as the Typed Frame ValidateColumns operation of
spec section 4.2, raising the same errors. -/
def FHIRDataProcessor.validate_columns (f : FHIRDataFrame) : Except PyErr Bool :=
  SpeziData.validate_columns f

/-- Lines 118-126 after validation: parse and store start_date if truthy,
then end_date, then filter when both are set, then plot.  State changes made
before an exception are kept. -/
def plotAfterDates (v : DataVisualizer) (df : PandasDF) : PlotResult :=
  let filtered :=
    if v.start_date.truthy ∧ v.end_date.truthy then
      match v.start_date, v.end_date with
      | .date ys ms ds, .date ye me dd => filterByRange df (ys, ms, ds) (ye, me, dd)
      | _, _ => df
    else df
  ⟨v, [], plotTail v filtered⟩

def plotAfterStart (v : DataVisualizer) (df : PandasDF) : PlotResult :=
  if v.end_date.truthy then
    match strptimeDate v.end_date with
    | .error e => ⟨v, [], .error e⟩
    | .ok (y, m, d) => plotAfterDates { v with end_date := .date y m d } df
  else plotAfterDates v df

def plotAfterValidate (v : DataVisualizer) (df : PandasDF) : PlotResult :=
  if v.start_date.truthy then
    match strptimeDate v.start_date with
    | .error e => ⟨v, [], .error e⟩
    | .ok (y, m, d) => plotAfterStart { v with start_date := .date y m d } df
  else plotAfterStart v df

/-- Embedding of DataVisualizer.create_static_plot.  Guard one: the first
cell of the EffectiveDateTime column must satisfy isinstance(x, date), else
print a message and return None.  Guard two: the LoincCode column must have
exactly one distinct non-missing value, else print a message and return
None.  Then self.validate_columns(frame) (exceptions propagate), then the
date-parsing mutations and the plotting tail. -/
def create_static_plot (v : DataVisualizer) (f : FHIRDataFrame) : PlotResult :=
  match f.data_frame.getCol "EffectiveDateTime" with
  | Option.none => ⟨v, [], .error (.keyError "EffectiveDateTime")⟩
  | some edtCells =>
    match edtCells with
    | [] => ⟨v, [], .error .indexError⟩
    | c0 :: _ =>
      if c0.isDateInstance then
        match f.data_frame.getCol "LoincCode" with
        | Option.none => ⟨v, [], .error (.keyError "LoincCode")⟩
        | some lcells =>
          if nunique lcells = 1 then
            match FHIRDataProcessor.validate_columns f with
            | .error e => ⟨v, [], .error e⟩
            | .ok _ => plotAfterValidate v f.data_frame
          else
            ⟨v, ["Error: More than one unique LoincCode found." ++
                 "Each plot should be based on a single LoincCode."],
             .ok Option.none⟩
      else ⟨v, ["The date type should be of type date."], .ok Option.none⟩

/-- Stated from the specification wording, for comparison with the code
path `selectEffective`: the EffectiveDateTime source is the records direct
effectiveDateTime field when present, otherwise the start boundary of its
effectivePeriod, otherwise missing. -/
def specSelectEffective (r : Observation) : Option String :=
  match r.effectiveDateTime with
  | some s => some s
  | Option.none => r.effectivePeriod.bind Period.start

/-- Two-entry coding list used by the sample records. -/
def sampleCodingList : List Coding :=
  [⟨"8867-4", "Heart rate"⟩, ⟨"HKQuantityTypeIdentifierHeartRate", "Heart Rate"⟩]

/-- Well-formed sample record with two coding entries. -/
def sampleObs : Observation :=
  { resource_type := "Observation",
    effectiveDateTime := some "2024-01-15",
    effectivePeriod := Option.none,
    code := some ⟨some sampleCodingList⟩,
    subject := some ⟨some "user1"⟩,
    valueQuantity := some ⟨"beats/minute", 72⟩ }

/-- Sample record with no effectiveDateTime but an effectivePeriod start. -/
def samplePeriodObs : Observation :=
  { sampleObs with effectiveDateTime := Option.none,
                   effectivePeriod := some ⟨some "2024-01-15"⟩ }

/-- Sample record lacking the valueQuantity field. -/
def sampleBadVQObs : Observation :=
  { sampleObs with valueQuantity := Option.none }

/-- Sample record carrying the QuestionnaireResponse tag. -/
def sampleQRObs : Observation :=
  { sampleObs with resource_type := "QuestionnaireResponse" }

/-- Well-formed one-row Observation frame used by the visualization
witnesses. -/
def sampleFrame : FHIRDataFrame :=
  ⟨⟨observationColumns,
    [[PyVal.str "user1", PyVal.date 2024 1 15, PyVal.str "Heart Rate",
      PyVal.str "beats/minute", PyVal.int 72, PyVal.str "8867-4",
      PyVal.str "Heart rate", PyVal.str "HK"]]⟩, .OBSERVATION⟩

/-- Frame whose table lacks exactly the QuantityValue column. -/
def sampleMissingQVFrame : FHIRDataFrame :=
  ⟨⟨observationColumns.filter (· ≠ "QuantityValue"),
    [[PyVal.str "user1", PyVal.date 2024 1 15, PyVal.str "Heart Rate",
      PyVal.str "beats/minute", PyVal.str "8867-4", PyVal.str "Heart rate",
      PyVal.str "HK"]]⟩, .OBSERVATION⟩

/-- Frame whose UserId column holds a date object: not uniformly
string-like, yet stored with object dtype. -/
def sampleObjDtypeFrame : FHIRDataFrame :=
  ⟨⟨observationColumns,
    [[PyVal.date 2024 1 1, PyVal.date 2024 1 15, PyVal.str "Heart Rate",
      PyVal.str "beats/minute", PyVal.int 72, PyVal.str "8867-4",
      PyVal.str "Heart rate", PyVal.str "HK"]]⟩, .OBSERVATION⟩

/-- Frame whose UserId column holds ints only, hence int64 dtype. -/
def sampleIntColFrame : FHIRDataFrame :=
  ⟨⟨observationColumns,
    [[PyVal.int 7, PyVal.date 2024 1 15, PyVal.str "Heart Rate",
      PyVal.str "beats/minute", PyVal.int 72, PyVal.str "8867-4",
      PyVal.str "Heart rate", PyVal.str "HK"]]⟩, .OBSERVATION⟩

/-- Frame whose first EffectiveDateTime cell is a string, not a date. -/
def sampleStrDateFrame : FHIRDataFrame :=
  ⟨⟨observationColumns,
    [[PyVal.str "user1", PyVal.str "2024-01-15", PyVal.str "Heart Rate",
      PyVal.str "beats/minute", PyVal.int 72, PyVal.str "8867-4",
      PyVal.str "Heart rate", PyVal.str "HK"]]⟩, .OBSERVATION⟩

/-- Frame with two distinct LoincCode values. -/
def sampleTwoLoincFrame : FHIRDataFrame :=
  ⟨⟨observationColumns,
    [[PyVal.str "user1", PyVal.date 2024 1 15, PyVal.str "HR",
      PyVal.str "bpm", PyVal.int 72, PyVal.str "8867-4",
      PyVal.str "x", PyVal.str "HK"],
     [PyVal.str "user1", PyVal.date 2024 1 16, PyVal.str "HR",
      PyVal.str "bpm", PyVal.int 70, PyVal.str "9999-9",
      PyVal.str "x", PyVal.str "HK"]]⟩, .OBSERVATION⟩

theorem find?_isSome_of_mem {α : Type} (l : List α) (p : α → Bool) (x : α)
    (hx : x ∈ l) (hp : p x = true) : (l.find? p).isSome := by
  induction l with
  | nil => cases hx
  | cons a t ih =>
    simp only [List.find?]
    cases hpa : p a with
    | true => simp
    | false =>
      simp only [Option.isSome]
      rcases List.mem_cons.mp hx with h | h
      · subst h; rw [hpa] at hp; cases hp
      · exact ih h

theorem flattenOne_eq_rawRow (r : Observation) (h : wellFormedObs r = true) :
    flattenOne r = .ok (rawRow r) := by
  unfold wellFormedObs at h
  obtain ⟨hcc, hs, hq⟩ := of_decide_eq_true h
  obtain ⟨cs, hcs⟩ := Option.isSome_iff_exists.mp hcc
  obtain ⟨subj, hsub⟩ := Option.isSome_iff_exists.mp hs
  obtain ⟨q, hq'⟩ := Option.isSome_iff_exists.mp hq
  cases hc : r.code with
  | none => rw [hc] at hcs; cases hcs
  | some cf =>
    rw [hc] at hcs
    simp only [Option.some_bind] at hcs
    simp [flattenOne, rawRow, hc, hcs, hsub, hq']

theorem mapExcept_ok_of_all {α β ε : Type} (f : α → Except ε β) (g : α → β)
    (l : List α) (h : ∀ x ∈ l, f x = .ok (g x)) :
    mapExcept f l = .ok (l.map g) := by
  induction l with
  | nil => rfl
  | cons a t ih =>
    simp only [mapExcept, h a (List.mem_cons_self a t),
      ih fun x hx => h x (List.mem_cons_of_mem a hx), List.map]
    rfl

theorem mapExcept_error_at {α β ε : Type} (f : α → Except ε β)
    (pre : List α) (r : α) (post : List α) (e : ε)
    (hpre : ∀ x ∈ pre, ∃ y, f x = .ok y) (hr : f r = .error e) :
    mapExcept f (pre ++ r :: post) = .error e := by
  induction pre with
  | nil => simp only [List.nil_append, mapExcept, hr]; rfl
  | cons a t ih =>
    obtain ⟨y, hy⟩ := hpre a (List.mem_cons_self a t)
    have iht := ih fun x hx => hpre x (List.mem_cons_of_mem a hx)
    rw [List.cons_append]
    simp only [mapExcept, hy, iht]
    rfl

theorem rawRow_coerce (r : Observation) :
    (rawRow r).set 1 (coerceCell ((rawRow r).getD 1 PyVal.none)) = flatRow r := by
  simp [rawRow, flatRow]

theorem observationFlatten_ok_shape (rs : List Observation) (h1 : rs ≠ [])
    (h2 : ∀ r ∈ rs, wellFormedObs r = true) :
    observationFlatten rs =
      .ok ⟨⟨observationColumns, rs.map flatRow⟩, .OBSERVATION⟩ := by
  have hrows : mapExcept flattenOne rs = .ok (rs.map rawRow) :=
    mapExcept_ok_of_all flattenOne rawRow rs fun r hr => flattenOne_eq_rawRow r (h2 r hr)
  have hne : (rs.map rawRow).isEmpty = false := by
    cases rs with
    | nil => exact absurd rfl h1
    | cons a t => rfl
  have hidx : observationColumns.findIdx? (· = "EffectiveDateTime") = some 1 := by rfl
  unfold observationFlatten
  rw [hrows]
  simp only [hne, Bool.false_eq_true, if_false, coerceDateColumnAt, hidx, List.map_map]
  congr 3

theorem parseDate_ne_empty (s : String) (p : Nat × Nat × Nat)
    (h : parseDate s = some p) : s ≠ "" := by
  intro hs
  subst hs
  have hnone : parseDate "" = Option.none := rfl
  rw [hnone] at h
  cases h

/-- C8: dispatch on the empty batch does not raise: it prints the
informational notice and returns the explicit no-data result None. -/
theorem spec_C8_empty_batch :
    flatten_fhir_resources [] = ⟨["No data available."], .ok Option.none⟩ := rfl

/-- C4: the claim expects an UnsupportedKind ValueError for a batch whose
first record carries the QuestionnaireResponse tag, and the function
docstring promises exactly that ValueError; the code instead raises
AttributeError, because the error-message f-string reads resource_type.name
on a plain str tag before the ValueError can be constructed.  The theorem
evaluates dispatch at such a batch. -/
theorem spec_C4_dispatch_qr (r : Observation) (rs : List Observation)
    (h : r.resource_type = "QuestionnaireResponse") :
    flatten_fhir_resources (r :: rs) = ⟨[], .error (.attributeError "name")⟩ := by
  simp [flatten_fhir_resources, h]

theorem spec_C4_witness :
    sampleQRObs.resource_type = "QuestionnaireResponse" ∧
    flatten_fhir_resources [sampleQRObs] = ⟨[], .error (.attributeError "name")⟩ :=
  ⟨rfl, spec_C4_dispatch_qr sampleQRObs [] rfl⟩

/-- C3, counterexample: the claim says the FieldMissing failure identifies
the offending records position.  The raised error is the bare KeyError of
the missing field: the same record missing valueQuantity produces the
identical error value whether it sits at position 0 of a batch or at
position 1 behind a well-formed record, so the error cannot identify the
position. -/
theorem spec_C3_counterexample :
    observationFlatten [sampleBadVQObs] = .error (.keyError "valueQuantity") ∧
    observationFlatten [sampleObs, sampleBadVQObs] =
      .error (.keyError "valueQuantity") := ⟨rfl, rfl⟩

/-- C3, amended: a batch containing a record on which per-record flattening
raises fails as a whole with exactly that first offending records error (a
KeyError naming the missing field, or AttributeError id for a missing
subject); no partial frame is returned, and the error carries no record
position. -/
theorem spec_C3_batch_fail (pre : List Observation) (r : Observation)
    (post : List Observation) (e : PyErr)
    (hpre : ∀ x ∈ pre, wellFormedObs x = true)
    (hr : flattenOne r = .error e) :
    observationFlatten (pre ++ r :: post) = .error e := by
  have hmap : mapExcept flattenOne (pre ++ r :: post) = .error e :=
    mapExcept_error_at flattenOne pre r post e
      (fun x hx => ⟨rawRow x, flattenOne_eq_rawRow x (hpre x hx)⟩) hr
  unfold observationFlatten
  rw [hmap]

theorem spec_C3_witness :
    (∀ x ∈ [sampleObs], wellFormedObs x = true) ∧
    flattenOne sampleBadVQObs = .error (.keyError "valueQuantity") ∧
    observationFlatten ([sampleObs] ++ sampleBadVQObs :: [samplePeriodObs]) =
      .error (.keyError "valueQuantity") :=
  ⟨by decide, rfl,
   spec_C3_batch_fail [sampleObs] sampleBadVQObs [samplePeriodObs]
     (.keyError "valueQuantity") (by decide) rfl⟩

/-- C6: when any required columns are absent, validate_columns raises one
MissingColumns error listing every absent required column (the full filter
of the registry list against the table columns), not just the first. -/
theorem spec_C6_missing_columns (f : FHIRDataFrame) (h : missingCols f ≠ []) :
    validate_columns f = .error (.missingColumns (missingCols f)) := by
  unfold validate_columns
  rw [if_pos h]

theorem spec_C6_witness :
    missingCols sampleMissingQVFrame ≠ [] ∧
    validate_columns sampleMissingQVFrame =
      .error (.missingColumns ["QuantityValue"]) :=
  ⟨by decide,
   (spec_C6_missing_columns sampleMissingQVFrame (by decide)).trans (by decide)⟩

/-- C5: a non-empty batch of well-formed Observation records flattens
without error to an Observation-kind frame whose columns are exactly the 8
registry columns and whose rows are the per-record rows in input order (so
there are exactly N of them). -/
theorem spec_C5_shape (rs : List Observation) (h1 : rs ≠ [])
    (h2 : ∀ r ∈ rs, wellFormedObs r = true) :
    observationFlatten rs =
      .ok ⟨⟨observationColumns, rs.map flatRow⟩, .OBSERVATION⟩ ∧
    (rs.map flatRow).length = rs.length ∧
    observationColumns.length = 8 :=
  ⟨observationFlatten_ok_shape rs h1 h2, by simp, rfl⟩

theorem spec_C5_witness :
    ([sampleObs, samplePeriodObs] : List Observation) ≠ [] ∧
    (∀ r ∈ ([sampleObs, samplePeriodObs] : List Observation), wellFormedObs r = true) ∧
    (observationFlatten [sampleObs, samplePeriodObs] =
        .ok ⟨⟨observationColumns, [sampleObs, samplePeriodObs].map flatRow⟩,
             .OBSERVATION⟩ ∧
      ([sampleObs, samplePeriodObs].map flatRow).length =
        ([sampleObs, samplePeriodObs] : List Observation).length ∧
      observationColumns.length = 8) :=
  ⟨by decide, by decide, spec_C5_shape [sampleObs, samplePeriodObs] (by decide) (by decide)⟩

/-- C1: for a record the flattener accepts, the four coding-derived cells of
its row follow the asymmetric slot rule: LoincCode and Display always come
from slot 0, AppleHealthKitCode and QuantityName prefer slot 1, and all four
are empty strings when the coding list is empty. -/
theorem spec_C1_coding_cells (obs : Observation) (cf : CodeField) (cs : List Coding)
    (subj : Subject) (q : Quantity)
    (h1 : obs.code = some cf) (h1b : cf.coding = some cs)
    (h2 : obs.subject = some subj) (h3 : obs.valueQuantity = some q) :
    ∃ df, observationFlatten [obs] = .ok df ∧
      df.data_frame.getCol "LoincCode" = some [PyVal.str (loincOf cs)] ∧
      df.data_frame.getCol "Display" = some [PyVal.str (displayOf cs)] ∧
      df.data_frame.getCol "AppleHealthKitCode" = some [PyVal.str (ahkOf cs)] ∧
      df.data_frame.getCol "QuantityName" = some [PyVal.str (qnameOf cs)] ∧
      (cs = [] → loincOf cs = "" ∧ displayOf cs = "" ∧
        ahkOf cs = "" ∧ qnameOf cs = "") ∧
      (∀ c, cs = [c] → loincOf cs = c.code ∧ displayOf cs = c.display ∧
        ahkOf cs = c.code ∧ qnameOf cs = c.display) ∧
      (∀ c₁ c₂ t, cs = c₁ :: c₂ :: t → loincOf cs = c₁.code ∧
        displayOf cs = c₁.display ∧ ahkOf cs = c₂.code ∧ qnameOf cs = c₂.display) := by
  have hwf : wellFormedObs obs = true := by
    simp [wellFormedObs, h1, h1b, h2, h3]
  have hflat := observationFlatten_ok_shape [obs] (by simp)
    (by intro r hr; rw [List.mem_singleton] at hr; subst hr; exact hwf)
  have hcs : (obs.code.bind CodeField.coding).getD [] = cs := by
    rw [h1, Option.some_bind, h1b]; rfl
  refine ⟨_, hflat, ?_, ?_, ?_, ?_, ?_, ?_, ?_⟩
  · have hcell : (⟨observationColumns, [obs].map flatRow⟩ : PandasDF).getCol "LoincCode" =
        some [PyVal.str (loincOf ((obs.code.bind CodeField.coding).getD []))] := rfl
    rw [hcs] at hcell; exact hcell
  · have hcell : (⟨observationColumns, [obs].map flatRow⟩ : PandasDF).getCol "Display" =
        some [PyVal.str (displayOf ((obs.code.bind CodeField.coding).getD []))] := rfl
    rw [hcs] at hcell; exact hcell
  · have hcell : (⟨observationColumns,
        [obs].map flatRow⟩ : PandasDF).getCol "AppleHealthKitCode" =
        some [PyVal.str (ahkOf ((obs.code.bind CodeField.coding).getD []))] := rfl
    rw [hcs] at hcell; exact hcell
  · have hcell : (⟨observationColumns, [obs].map flatRow⟩ : PandasDF).getCol "QuantityName" =
        some [PyVal.str (qnameOf ((obs.code.bind CodeField.coding).getD []))] := rfl
    rw [hcs] at hcell; exact hcell
  · intro hnil; subst hnil; exact ⟨rfl, rfl, rfl, rfl⟩
  · intro c hc; subst hc; exact ⟨rfl, rfl, rfl, rfl⟩
  · intro c₁ c₂ t hc; subst hc; exact ⟨rfl, rfl, rfl, rfl⟩

theorem spec_C1_witness :
    sampleObs.code = some ⟨some sampleCodingList⟩ ∧
    (∃ df, observationFlatten [sampleObs] = .ok df ∧
      df.data_frame.getCol "LoincCode" = some [PyVal.str (loincOf sampleCodingList)] ∧
      df.data_frame.getCol "Display" = some [PyVal.str (displayOf sampleCodingList)] ∧
      df.data_frame.getCol "AppleHealthKitCode" =
        some [PyVal.str (ahkOf sampleCodingList)] ∧
      df.data_frame.getCol "QuantityName" =
        some [PyVal.str (qnameOf sampleCodingList)] ∧
      (sampleCodingList = [] → loincOf sampleCodingList = "" ∧
        displayOf sampleCodingList = "" ∧ ahkOf sampleCodingList = "" ∧
        qnameOf sampleCodingList = "") ∧
      (∀ c, sampleCodingList = [c] → loincOf sampleCodingList = c.code ∧
        displayOf sampleCodingList = c.display ∧ ahkOf sampleCodingList = c.code ∧
        qnameOf sampleCodingList = c.display) ∧
      (∀ c₁ c₂ t, sampleCodingList = c₁ :: c₂ :: t →
        loincOf sampleCodingList = c₁.code ∧ displayOf sampleCodingList = c₁.display ∧
        ahkOf sampleCodingList = c₂.code ∧ qnameOf sampleCodingList = c₂.display)) :=
  ⟨rfl, spec_C1_coding_cells sampleObs ⟨some sampleCodingList⟩ sampleCodingList
    ⟨some "user1"⟩ ⟨"beats/minute", 72⟩ rfl rfl rfl rfl⟩

/-- Code-path date selection agrees with the spec-worded selection once the
date fields are never the empty string (the input contract demands
ISO-parseable strings, which are never empty): the code tests truthiness,
the spec speaks of presence. -/
theorem selectEffective_coerce (obs : Observation)
    (h4 : obs.effectiveDateTime ≠ some "")
    (h5 : obs.effectivePeriod.bind Period.start ≠ some "") :
    coerceCell (optStrCell (selectEffective obs)) =
      (match specSelectEffective obs with
       | some s => coerceCell (PyVal.str s)
       | Option.none => PyVal.naT) := by
  cases he : obs.effectiveDateTime with
  | some s =>
    have hsne : s ≠ "" := by intro h; rw [h] at he; exact h4 he
    simp [selectEffective, specSelectEffective, pyTruthy, optStrCell, he, hsne]
  | none =>
    cases hp : obs.effectivePeriod.bind Period.start with
    | some u =>
      have hune : u ≠ "" := by intro h; rw [h] at hp; exact h5 hp
      simp [selectEffective, specSelectEffective, pyTruthy, optStrCell, he, hp, hune]
    | none =>
      simp [selectEffective, specSelectEffective, pyTruthy, optStrCell, he, hp, coerceCell]

/-- C2: for a record the flattener accepts whose date fields respect the
input contract (no empty strings), the EffectiveDateTime cell comes from
effectiveDateTime when present, else from effectivePeriod.start, else it is
the missing value NaT — all without raising — and the selected string is
then parsed by the column coercion, any unparseable value becoming NaT
rather than an error. -/
theorem spec_C2_effective_cell (obs : Observation) (cf : CodeField) (cs : List Coding)
    (subj : Subject) (q : Quantity)
    (h1 : obs.code = some cf) (h1b : cf.coding = some cs)
    (h2 : obs.subject = some subj) (h3 : obs.valueQuantity = some q)
    (h4 : obs.effectiveDateTime ≠ some "")
    (h5 : obs.effectivePeriod.bind Period.start ≠ some "") :
    ∃ df, observationFlatten [obs] = .ok df ∧
      df.data_frame.getCol "EffectiveDateTime" =
        some [match specSelectEffective obs with
              | some s => coerceCell (PyVal.str s)
              | Option.none => PyVal.naT] := by
  have hwf : wellFormedObs obs = true := by
    simp [wellFormedObs, h1, h1b, h2, h3]
  have hflat := observationFlatten_ok_shape [obs] (by simp)
    (by intro r hr; rw [List.mem_singleton] at hr; subst hr; exact hwf)
  refine ⟨_, hflat, ?_⟩
  have hcell : (⟨observationColumns, [obs].map flatRow⟩ : PandasDF).getCol
      "EffectiveDateTime" = some [coerceCell (optStrCell (selectEffective obs))] := rfl
  rw [selectEffective_coerce obs h4 h5] at hcell
  exact hcell

theorem spec_C2_witness :
    samplePeriodObs.effectiveDateTime ≠ some "" ∧
    samplePeriodObs.effectivePeriod.bind Period.start ≠ some "" ∧
    (∃ df, observationFlatten [samplePeriodObs] = .ok df ∧
      df.data_frame.getCol "EffectiveDateTime" =
        some [match specSelectEffective samplePeriodObs with
              | some s => coerceCell (PyVal.str s)
              | Option.none => PyVal.naT]) :=
  ⟨by decide, by decide,
   spec_C2_effective_cell samplePeriodObs ⟨some sampleCodingList⟩ sampleCodingList
     ⟨some "user1"⟩ ⟨"beats/minute", 72⟩ rfl rfl rfl rfl (by decide) (by decide)⟩

/-- C7, counterexample: the claim says any present required column (other
than EffectiveDateTime and QuantityValue) whose values are not uniformly
string-like makes validate_columns fail with WrongType.  The check is
dtype-based: a one-row frame whose UserId cell is a date object stores the
column with object dtype, which passes `is_string_dtype or is_object_dtype`,
so validation succeeds although the values are not strings. -/
theorem spec_C7_counterexample :
    validate_columns sampleObjDtypeFrame = .ok true ∧
    "UserId" ∈ stringCheckCols sampleObjDtypeFrame.resource_type ∧
    ((sampleObjDtypeFrame.data_frame.getCol "UserId").getD []).all PyVal.isStr
      = false := by decide

/-- C7, amended: a present required column other than EffectiveDateTime and
QuantityValue draws a WrongType error exactly when its inferred dtype is not
string-like or object; uniformly numeric columns are caught, while columns
of non-string objects (mixed values, dates) pass because they are stored
with object dtype. -/
theorem spec_C7_wrong_dtype (f : FHIRDataFrame) (c : String) (cells : List PyVal)
    (hmiss : missingCols f = [])
    (hedt : edtCellsOK f.data_frame = true)
    (hc : c ∈ stringCheckCols f.resource_type)
    (hcol : f.data_frame.getCol c = some cells)
    (hbad : stringLikeDtype (dtypeOf cells) = false) :
    ∃ c', validate_columns f = .error (.wrongTypeCol c') := by
  unfold validate_columns
  rw [if_neg (by simp [hmiss]), if_pos hedt]
  have hfind : (firstBadStringCol f.data_frame (stringCheckCols f.resource_type)).isSome := by
    apply find?_isSome_of_mem _ _ c hc
    simp [hcol, hbad]
  obtain ⟨c', hc'⟩ := Option.isSome_iff_exists.mp hfind
  exact ⟨c', by rw [hc']⟩

theorem spec_C7_witness :
    missingCols sampleIntColFrame = [] ∧
    edtCellsOK sampleIntColFrame.data_frame = true ∧
    "UserId" ∈ stringCheckCols sampleIntColFrame.resource_type ∧
    sampleIntColFrame.data_frame.getCol "UserId" = some [PyVal.int 7] ∧
    stringLikeDtype (dtypeOf [PyVal.int 7]) = false ∧
    (∃ c', validate_columns sampleIntColFrame = .error (.wrongTypeCol c')) :=
  ⟨by decide, by decide, by decide, by decide, by decide,
   spec_C7_wrong_dtype sampleIntColFrame "UserId" [PyVal.int 7]
     (by decide) (by decide) (by decide) (by decide) (by decide)⟩

/-- C9: when the first EffectiveDateTime cell fails the isinstance-date test,
or more than one distinct LoincCode value is present, create_static_plot
returns None, prints a message, raises nothing, and leaves the visualizer
state untouched. -/
theorem spec_C9_reject (v : DataVisualizer) (f : FHIRDataFrame) (c0 : PyVal)
    (rest lcells : List PyVal)
    (h1 : f.data_frame.getCol "EffectiveDateTime" = some (c0 :: rest))
    (h2 : f.data_frame.getCol "LoincCode" = some lcells)
    (h3 : c0.isDateInstance = false ∨ 1 < nunique lcells) :
    (create_static_plot v f).result = .ok Option.none ∧
    (create_static_plot v f).logs ≠ [] ∧
    (create_static_plot v f).state = v := by
  unfold create_static_plot
  rw [h1]
  cases hd : c0.isDateInstance with
  | false => simp [hd]
  | true =>
    rw [h2]
    have hnu : nunique lcells ≠ 1 := by
      rcases h3 with h | h
      · rw [hd] at h; cases h
      · omega
    simp [hnu, hd]

theorem spec_C9_witness :
    (PyVal.str "2024-01-15").isDateInstance = false ∧
    1 < nunique [PyVal.str "8867-4", PyVal.str "9999-9"] ∧
    (create_static_plot DataVisualizer.init sampleStrDateFrame).result
      = .ok Option.none ∧
    (create_static_plot DataVisualizer.init sampleStrDateFrame).logs ≠ [] ∧
    (create_static_plot DataVisualizer.init sampleTwoLoincFrame).result
      = .ok Option.none ∧
    (create_static_plot DataVisualizer.init sampleTwoLoincFrame).logs ≠ [] := by
  have ha := spec_C9_reject DataVisualizer.init sampleStrDateFrame
    (PyVal.str "2024-01-15") [] [PyVal.str "8867-4"] rfl rfl (Or.inl rfl)
  have hb := spec_C9_reject DataVisualizer.init sampleTwoLoincFrame
    (PyVal.date 2024 1 15) [PyVal.date 2024 1 16]
    [PyVal.str "8867-4", PyVal.str "9999-9"] rfl rfl (Or.inr (by decide))
  exact ⟨rfl, by decide, ha.1, ha.2.1, hb.1, hb.2.1⟩

theorem create_plot_pass_guards (v : DataVisualizer) (f : FHIRDataFrame)
    (c0 : PyVal) (rest lcells : List PyVal)
    (h1 : f.data_frame.getCol "EffectiveDateTime" = some (c0 :: rest))
    (hd : c0.isDateInstance = true)
    (h2 : f.data_frame.getCol "LoincCode" = some lcells)
    (hnu : nunique lcells = 1)
    (hval : validate_columns f = .ok true) :
    create_static_plot v f = plotAfterValidate v f.data_frame := by
  have hval' : FHIRDataProcessor.validate_columns f = Except.ok true := hval
  unfold create_static_plot
  simp only [h1, hd, h2, hnu, hval', if_true]

theorem plotAfterValidate_parse (v : DataVisualizer) (df : PandasDF)
    (s e : String) (p1 p2 p3 q1 q2 q3 : Nat)
    (hs : v.start_date = .str s) (he : v.end_date = .str e)
    (hps : parseDate s = some (p1, p2, p3)) (hpe : parseDate e = some (q1, q2, q3)) :
    plotAfterValidate v df =
      plotAfterDates { v with start_date := .date p1 p2 p3,
                              end_date := .date q1 q2 q3 } df := by
  have hsne : s ≠ "" := parseDate_ne_empty s (p1, p2, p3) hps
  have hene : e ≠ "" := parseDate_ne_empty e (q1, q2, q3) hpe
  unfold plotAfterValidate
  rw [hs]
  simp only [PyVal.truthy, hsne, ne_eq, not_false_eq_true, strptimeDate, hps]
  unfold plotAfterStart
  simp only [he]
  simp only [PyVal.truthy, hene, ne_eq, not_false_eq_true, strptimeDate, hpe]
  simp

theorem plotAfterValidate_on_date (v : DataVisualizer) (df : PandasDF)
    (p1 p2 p3 : Nat) (hs : v.start_date = .date p1 p2 p3) :
    plotAfterValidate v df =
      ⟨v, [], .error (.typeError "strptime argument 1 must be str")⟩ := by
  unfold plotAfterValidate
  rw [hs]
  simp [PyVal.truthy, strptimeDate]

/-- C10: create_static_plot mutates the visualizer it runs on: with a date
range stored as strings, the call overwrites start_date and end_date with
the parsed date objects (whatever the plotting tail then does), so the
fields differ from their pre-call values; a calling of the plot a second
time on the resulting state feeds those date objects to strptime again,
which raises TypeError because they are no longer strings. -/
theorem spec_C10_state_mutation (v : DataVisualizer) (f : FHIRDataFrame)
    (s e : String) (p1 p2 p3 q1 q2 q3 : Nat)
    (c0 : PyVal) (rest lcells : List PyVal)
    (hs : v.start_date = .str s) (he : v.end_date = .str e)
    (hps : parseDate s = some (p1, p2, p3)) (hpe : parseDate e = some (q1, q2, q3))
    (h1 : f.data_frame.getCol "EffectiveDateTime" = some (c0 :: rest))
    (hd : c0.isDateInstance = true)
    (h2 : f.data_frame.getCol "LoincCode" = some lcells)
    (hnu : nunique lcells = 1)
    (hval : validate_columns f = .ok true) :
    (create_static_plot v f).state =
      { v with start_date := .date p1 p2 p3, end_date := .date q1 q2 q3 } ∧
    (create_static_plot v f).state.start_date ≠ v.start_date ∧
    (create_static_plot v f).state.end_date ≠ v.end_date ∧
    (create_static_plot ((create_static_plot v f).state) f).result =
      .error (.typeError "strptime argument 1 must be str") := by
  have hg1 := create_plot_pass_guards v f c0 rest lcells h1 hd h2 hnu hval
  have hp := plotAfterValidate_parse v f.data_frame s e p1 p2 p3 q1 q2 q3 hs he hps hpe
  have hstate : (create_static_plot v f).state =
      { v with start_date := .date p1 p2 p3, end_date := .date q1 q2 q3 } := by
    rw [hg1, hp]
    rfl
  refine ⟨hstate, ?_, ?_, ?_⟩
  · rw [hstate, hs]; simp
  · rw [hstate, he]; simp
  · have hg2 := create_plot_pass_guards
      { v with start_date := .date p1 p2 p3, end_date := .date q1 q2 q3 } f
      c0 rest lcells h1 hd h2 hnu hval
    rw [hstate, hg2, plotAfterValidate_on_date _ f.data_frame p1 p2 p3 rfl]

theorem spec_C10_witness :
    (DataVisualizer.init.set_date_range "2024-01-10" "2024-01-20").start_date =
      PyVal.str "2024-01-10" ∧
    parseDate "2024-01-10" = some (2024, 1, 10) ∧
    parseDate "2024-01-20" = some (2024, 1, 20) ∧
    validate_columns sampleFrame = .ok true ∧
    ((create_static_plot (DataVisualizer.init.set_date_range "2024-01-10" "2024-01-20")
        sampleFrame).state =
      { DataVisualizer.init.set_date_range "2024-01-10" "2024-01-20" with
          start_date := .date 2024 1 10, end_date := .date 2024 1 20 } ∧
     (create_static_plot (DataVisualizer.init.set_date_range "2024-01-10" "2024-01-20")
        sampleFrame).state.start_date ≠
      (DataVisualizer.init.set_date_range "2024-01-10" "2024-01-20").start_date ∧
     (create_static_plot (DataVisualizer.init.set_date_range "2024-01-10" "2024-01-20")
        sampleFrame).state.end_date ≠
      (DataVisualizer.init.set_date_range "2024-01-10" "2024-01-20").end_date ∧
     (create_static_plot
        ((create_static_plot (DataVisualizer.init.set_date_range "2024-01-10" "2024-01-20")
          sampleFrame).state) sampleFrame).result =
      .error (.typeError "strptime argument 1 must be str")) :=
  ⟨rfl, rfl, rfl, by decide,
   spec_C10_state_mutation
     (DataVisualizer.init.set_date_range "2024-01-10" "2024-01-20") sampleFrame
     "2024-01-10" "2024-01-20" 2024 1 10 2024 1 20 (PyVal.date 2024 1 15) []
     [PyVal.str "8867-4"] rfl rfl rfl rfl rfl rfl rfl rfl (by decide)⟩

end SpeziData
